import Mathlib

/-!
Shallow embedding of the dispatch core of the flood-response backend
(backend/app): geographic math (services/gis_service.py), the incident and
rescue-unit state machines (models/incident.py, models/rescue_unit.py), the
priority scorer, the spatial matcher and batch planner (utils/spatial.py),
and the coverage-gap analyzer.

Modelling conventions.  Python floats are real numbers where the source does
trigonometry and rationals where the source does exact-enough arithmetic
(comparisons, steps, scores); datetimes are rational timestamps in seconds;
SQLAlchemy rows are structures and database queries over the unit table are
list traversals; the external PostGIS geodesic distance behind ST_Distance
and ST_DWithin (in kilometres) is an explicit function parameter named
`dist`; exceptions are `Except` results.  Python truthiness on floats (0.0
is falsy) and on optional ints (None and 0 are falsy) is modelled explicitly
where the source relies on it.
-/

namespace FloodResponse

/-- Incident severity levels, from models/incident.py `SeverityLevel`. -/
inductive SeverityLevel
  | low
  | medium
  | high
  | critical
deriving DecidableEq

/-- Incident lifecycle statuses, from models/incident.py `IncidentStatus`. -/
inductive IncidentStatus
  | reported
  | verified
  | assigned
  | inProgress
  | resolved
  | closed
  | cancelled
deriving DecidableEq, Fintype

/-- Rescue-unit statuses, from models/rescue_unit.py `UnitStatus`. -/
inductive UnitStatus
  | available
  | standby
  | dispatched
  | enRoute
  | onScene
  | busy
  | returning
  | outOfService
  | maintenance
  | offline
deriving DecidableEq, Fintype

/-- Rescue-unit types, from models/rescue_unit.py `UnitType`. -/
inductive UnitType
  | fireRescue
  | medical
  | waterRescue
  | evacuation
  | searchRescue
  | police
  | emergencyServices
  | volunteer
  | hazmat
  | technicalRescue
deriving DecidableEq

/-- The allowed-successor table of `IncidentStatus.can_transition_to`
(models/incident.py lines 147-158): the `transitions` dictionary. -/
def IncidentStatus.transitions : IncidentStatus → List IncidentStatus
  | .reported => [.verified, .assigned, .cancelled]
  | .verified => [.assigned, .cancelled]
  | .assigned => [.inProgress, .reported, .cancelled]
  | .inProgress => [.resolved, .assigned]
  | .resolved => [.closed, .inProgress]
  | .closed => []
  | .cancelled => []

/-- `IncidentStatus.can_transition_to` (models/incident.py):
membership of the requested status in the transition table row. -/
def IncidentStatus.canTransitionTo (s t : IncidentStatus) : Bool :=
  (IncidentStatus.transitions s).contains t

/-- `UnitStatus.is_operational` (models/rescue_unit.py lines 128-134). -/
def UnitStatus.isOperational (s : UnitStatus) : Bool :=
  [UnitStatus.available, .standby, .dispatched, .enRoute, .onScene, .busy,
    .returning].contains s

/-- `UnitStatus.is_available_for_dispatch` (models/rescue_unit.py lines
136-139). -/
def UnitStatus.isAvailableForDispatch (s : UnitStatus) : Bool :=
  [UnitStatus.available, .standby].contains s

/-- String value of an incident type enum member (models/incident.py
`IncidentType`), as passed to `can_handle_incident_type`. -/
inductive IncidentType
  | flood
  | rescueNeeded
  | infrastructureDamage
  | roadClosure
  | powerOutage
  | waterContamination
  | evacuationRequired
  | medicalEmergency
  | fire
  | landslide
  | chemicalSpill
  | buildingCollapse
  | other
deriving DecidableEq

/-- The `.value` string of an `IncidentType` member. -/
def IncidentType.value : IncidentType → String
  | .flood => "flood"
  | .rescueNeeded => "rescue_needed"
  | .infrastructureDamage => "infrastructure_damage"
  | .roadClosure => "road_closure"
  | .powerOutage => "power_outage"
  | .waterContamination => "water_contamination"
  | .evacuationRequired => "evacuation_required"
  | .medicalEmergency => "medical_emergency"
  | .fire => "fire"
  | .landslide => "landslide"
  | .chemicalSpill => "chemical_spill"
  | .buildingCollapse => "building_collapse"
  | .other => "other"

/-! Geo math, from services/gis_service.py.  The haversine code runs on
floats through `math.radians`, `math.sin`, `math.cos`, `math.sqrt` and
`math.asin`; it is modelled over the real numbers.  `math.sqrt` and
`math.asin` raise a math domain error outside their domains, which the
checked variants below reproduce with an `Except` result. -/

/-- `math.radians`: degrees to radians. -/
noncomputable def radiansR (x : ℝ) : ℝ := x * Real.pi / 180

/-- `math.sqrt` with the Python math-domain check: errors on negative
input. -/
noncomputable def checkedSqrt (x : ℝ) : Except String ℝ :=
  if x < 0 then .error ("math domain error") else .ok (Real.sqrt x)

/-- `math.asin` with the Python math-domain check: errors outside
[-1, 1]. -/
noncomputable def checkedAsin (x : ℝ) : Except String ℝ :=
  if x < -1 ∨ 1 < x then .error ("math domain error") else .ok (Real.arcsin x)

/-- The haversine intermediate `a` of `calculate_distance`
(services/gis_service.py lines 16-33):
`sin(dlat/2)**2 + cos(lat1)*cos(lat2)*sin(dlon/2)**2` after converting the
four inputs to radians. -/
noncomputable def haversineA (lat1 lon1 lat2 lon2 : ℝ) : ℝ :=
  Real.sin ((radiansR lat2 - radiansR lat1) / 2) ^ 2 +
    Real.cos (radiansR lat1) * Real.cos (radiansR lat2) *
      Real.sin ((radiansR lon2 - radiansR lon1) / 2) ^ 2

/-- The value computed by `calculate_distance` when no math-domain error
occurs: `c * r` with `c = 2 * asin(sqrt(a))` and `r = 6371`. -/
noncomputable def calculateDistanceVal (lat1 lon1 lat2 lon2 : ℝ) : ℝ :=
  2 * Real.arcsin (Real.sqrt (haversineA lat1 lon1 lat2 lon2)) * 6371

/-- `calculate_distance` (services/gis_service.py lines 16-33) with the
Python math-module domain semantics made explicit.  The function performs no
coordinate validation of its own. -/
noncomputable def calculateDistance (lat1 lon1 lat2 lon2 : ℝ) :
    Except String ℝ :=
  match checkedSqrt (haversineA lat1 lon1 lat2 lon2) with
  | .error e => .error e
  | .ok s =>
    match checkedAsin s with
    | .error e => .error e
    | .ok c => .ok (2 * c * 6371)

/-- `point_in_radius` (services/gis_service.py lines 55-58): the distance
compared against the radius, propagating any error from
`calculate_distance`. -/
noncomputable def pointInRadius (centerLat centerLon pointLat pointLon
    radiusKm : ℝ) : Except String Prop :=
  match calculateDistance centerLat centerLon pointLat pointLon with
  | .error e => .error e
  | .ok d => .ok (d ≤ radiusKm)

/-- `get_bounding_box` (services/gis_service.py lines 61-75): the
`(min_lat, min_lon, max_lat, max_lon)` envelope.  The function performs no
coordinate validation. -/
noncomputable def getBoundingBox (centerLat centerLon radiusKm : ℝ) :
    ℝ × ℝ × ℝ × ℝ :=
  let latDelta := radiusKm / 111
  let lonDelta := radiusKm / (111 * Real.cos (radiansR centerLat))
  (centerLat - latDelta, centerLon - lonDelta,
    centerLat + latDelta, centerLon + lonDelta)

/-- `validate_coordinates` (services/gis_service.py lines 78-80).  No other
function in gis_service.py or in the dispatch path calls it. -/
def validateCoordinates (latitude longitude : ℚ) : Bool :=
  decide (-90 ≤ latitude ∧ latitude ≤ 90) &&
    decide (-180 ≤ longitude ∧ longitude ≤ 180)

/-! Priority scorer, from `Incident.calculate_priority_score`
(models/incident.py lines 307-351).  The code reads `datetime.utcnow()`
once, to form the age `hours_old`; the scorer below takes the age as the
explicit `hoursOld` argument.  All float arithmetic in the source is exact
at these operand values, so rationals model it faithfully; Python `int()`
truncation coincides with the floor on the non-negative scores produced. -/

/-- The `severity_weights` dictionary lookup of
`calculate_priority_score`. -/
def severityWeight : SeverityLevel → ℚ
  | .low => 10
  | .medium => 30
  | .high => 60
  | .critical => 100

/-- The affected-people tier bonus of `calculate_priority_score`. -/
def affectedPeopleBonus (affectedPeopleCount : ℤ) : ℚ :=
  if affectedPeopleCount > 100 then 30
  else if affectedPeopleCount > 50 then 25
  else if affectedPeopleCount > 20 then 20
  else if affectedPeopleCount > 10 then 15
  else if affectedPeopleCount > 0 then 10
  else 0

/-- The age-of-incident bonus of `calculate_priority_score`. -/
def ageBonus (hoursOld : ℚ) : ℚ :=
  if hoursOld > 24 then 20
  else if hoursOld > 12 then 15
  else if hoursOld > 6 then 10
  else if hoursOld > 2 then 5
  else 0

/-- The special-condition flag bonus of `calculate_priority_score`. -/
def flagBonus (isMassCasualty isHazmatInvolved isStructuralDamage : Bool) :
    ℚ :=
  (if isMassCasualty then 5 else 0) + (if isHazmatInvolved then 3 else 0) +
    (if isStructuralDamage then 2 else 0)

/-- `Incident.calculate_priority_score` (models/incident.py lines 307-351)
as a function of its explicit inputs: `min(int(score), 100)` over the
severity weight scaled by 0.4 plus the three bonuses. -/
def calculatePriorityScoreOf (severity : SeverityLevel)
    (affectedPeopleCount : ℤ) (hoursOld : ℚ)
    (isMassCasualty isHazmatInvolved isStructuralDamage : Bool) : ℤ :=
  let score : ℚ := severityWeight severity * (2 / 5) +
    affectedPeopleBonus affectedPeopleCount + ageBonus hoursOld +
    flagBonus isMassCasualty isHazmatInvolved isStructuralDamage
  min ⌊score⌋ 100

/-! Entity records.  Only the columns and properties the dispatch core
reads or writes are modelled; timestamps are rational seconds.  The
`latitude`/`longitude` properties of both models return plain floats
(0.0 stands in for a missing location), so they are plain rationals
here. -/

/-- One entry of the `notes` JSON array appended by `Incident.add_note`
(models/incident.py lines 365-376). -/
structure NoteEntry where
  noteId : ℕ
  note : String
  userId : ℕ
  timestamp : ℚ
deriving DecidableEq

/-- The `Incident` row (models/incident.py), restricted to the fields the
dispatch core touches. -/
structure Incident where
  id : ℕ
  incidentType : IncidentType
  severity : SeverityLevel
  status : IncidentStatus
  latitude : ℚ
  longitude : ℚ
  affectedPeopleCount : ℤ
  assignedUnitId : Option ℕ
  assignedById : Option ℕ
  verifiedById : Option ℕ
  isMassCasualty : Bool
  isHazmatInvolved : Bool
  isStructuralDamage : Bool
  createdAt : ℚ
  verifiedAt : Option ℚ
  assignedAt : Option ℚ
  responseStartedAt : Option ℚ
  resolvedAt : Option ℚ
  closedAt : Option ℚ
  resolutionTime : Option ℤ
  notes : List NoteEntry
deriving DecidableEq

/-- The `RescueUnit` row (models/rescue_unit.py), restricted to the fields
the dispatch core touches. -/
structure RescueUnit where
  id : ℕ
  unitName : String
  unitType : UnitType
  status : UnitStatus
  latitude : ℚ
  longitude : ℚ
  capabilities : List String
  currentIncidentId : Option ℕ
  deploymentStart : Option ℚ
  estimatedReturn : Option ℚ
  totalServiceTime : ℚ
  lastDeployment : Option ℚ
  statusChangedAt : ℚ
  isActive : Bool
deriving DecidableEq

/-- Python truthiness of an optional integer id (`if user_id:` /
`if incident_id:`): None and 0 are both falsy. -/
def optIdTruthy : Option ℕ → Bool
  | none => false
  | some n => n != 0

/-- `Incident.calculate_priority_score` as a method: the age is
`(now - created_at)` seconds converted to hours, everything else is read
from the row. -/
def Incident.calculatePriorityScore (inc : Incident) (now : ℚ) : ℤ :=
  calculatePriorityScoreOf inc.severity inc.affectedPeopleCount
    ((now - inc.createdAt) / 3600) inc.isMassCasualty inc.isHazmatInvolved
    inc.isStructuralDamage

/-- The `.value` string of an `IncidentStatus`, used in the
`update_status` error message. -/
def IncidentStatus.value : IncidentStatus → String
  | .reported => "reported"
  | .verified => "verified"
  | .assigned => "assigned"
  | .inProgress => "in_progress"
  | .resolved => "resolved"
  | .closed => "closed"
  | .cancelled => "cancelled"

/-- The `ValueError` message raised by `Incident.update_status` on a
transition outside the table. -/
def transitionErrorMsg (s t : IncidentStatus) : String :=
  "Cannot transition from " ++ s.value ++ " to " ++ t.value

/-- Python `int()` truncation toward zero on a rational. -/
def truncToInt (q : ℚ) : ℤ := if q < 0 then -⌊-q⌋ else ⌊q⌋

/-- `Incident.add_note` (models/incident.py lines 365-376): appends a note
whose id is the new length of the list. -/
def Incident.addNote (inc : Incident) (note : String) (userId : ℕ)
    (now : ℚ) : Incident :=
  { inc with notes := inc.notes ++
      [{ noteId := inc.notes.length + 1, note := note, userId := userId,
         timestamp := now }] }

/-- `Incident.update_status` (models/incident.py lines 378-407): raises
before touching any field when the transition table forbids the move,
otherwise sets the status, stamps the matching timestamp, records the
resolution duration on entering `resolved`, and appends a status-change
note when `user_id` is truthy. -/
def Incident.updateStatus (inc : Incident) (newStatus : IncidentStatus)
    (userId : Option ℕ) (now : ℚ) : Except String Incident :=
  if ¬ inc.status.canTransitionTo newStatus then
    .error (transitionErrorMsg inc.status newStatus)
  else
    let inc1 := { inc with status := newStatus }
    let inc2 :=
      match newStatus with
      | .verified =>
        let a := { inc1 with verifiedAt := some now }
        if optIdTruthy userId then { a with verifiedById := userId } else a
      | .assigned =>
        let a := { inc1 with assignedAt := some now }
        if optIdTruthy userId then { a with assignedById := userId } else a
      | .inProgress => { inc1 with responseStartedAt := some now }
      | .resolved =>
        { inc1 with
            resolvedAt := some now
            resolutionTime := some (truncToInt ((now - inc.createdAt) / 60)) }
      | .closed => { inc1 with closedAt := some now }
      | _ => inc1
    .ok (match userId with
      | some u => if u != 0 then inc2.addNote
          ("Status changed from " ++ inc.status.value ++ " to " ++
            newStatus.value) u now
        else inc2
      | none => inc2)

/-- `RescueUnit.update_status` (models/rescue_unit.py lines 337-357): no
transition table — every requested status is accepted; stamps
`status_changed_at`; entering `dispatched` with a truthy incident id
records the deployment; entering `available` accumulates the elapsed
deployment time and clears the deployment fields; entering `on_scene`
stamps `last_deployment`. -/
def RescueUnit.updateStatus (u : RescueUnit) (newStatus : UnitStatus)
    (incidentId : Option ℕ) (now : ℚ) : RescueUnit :=
  let u1 := { u with status := newStatus, statusChangedAt := now }
  if newStatus = .dispatched ∧ optIdTruthy incidentId then
    { u1 with currentIncidentId := incidentId, deploymentStart := some now }
  else if newStatus = .available then
    let u2 :=
      match u1.deploymentStart with
      | some t =>
        { u1 with totalServiceTime := u1.totalServiceTime + (now - t) / 3600 }
      | none => u1
    { u2 with
        currentIncidentId := none
        deploymentStart := none
        estimatedReturn := none }
  else if newStatus = .onScene then
    { u1 with lastDeployment := some now }
  else
    u1

/-- The `type_capabilities` dictionary of
`RescueUnit.can_handle_incident_type` (models/rescue_unit.py lines
381-397). -/
def typeCapabilities : List (String × List String) :=
  [("flood", ["water_rescue", "evacuation", "rescue"]),
   ("rescue_needed", ["rescue", "search_operations", "medical_basic"]),
   ("medical_emergency",
     ["medical_advanced", "medical_basic", "patient_transport"]),
   ("fire", ["firefighting", "rescue", "vehicle_extrication"]),
   ("infrastructure_damage", ["technical_rescue", "structural_collapse"]),
   ("evacuation_required", ["mass_transport", "evacuation", "crowd_control"]),
   ("hazmat", ["chemical_response", "decontamination", "environmental"])]

/-- `RescueUnit.can_handle_incident_type` (models/rescue_unit.py lines
381-397): true when any required capability for the incident type is among
the unit's capabilities. -/
def RescueUnit.canHandleIncidentType (u : RescueUnit)
    (incidentType : String) : Bool :=
  let requiredCapabilities := (typeCapabilities.lookup incidentType).getD []
  requiredCapabilities.any (fun cap => u.capabilities.contains cap)

/-! Spatial matcher and batch planner, from utils/spatial.py.  The database
queries scan the unit table; the PostGIS geodesic distance (kilometres)
behind ST_Distance / ST_DWithin is the explicit parameter `dist`, applied
as `dist unitLat unitLon queryLat queryLon`; `order_by(distance).first()`
is the first list element of minimal distance. -/

/-- The filter chain of `find_nearest_rescue_unit` (utils/spatial.py lines
14-49): units of status `available`, optionally restricted to the given
unit types (an empty list, like Python None or an empty list, disables the
filter), within `radius_km` of the query point. -/
def findNearestPool (dist : ℚ → ℚ → ℚ → ℚ → ℚ)
    (units : List RescueUnit) (latitude longitude radiusKm : ℚ)
    (unitTypes : List UnitType) : List RescueUnit :=
  let q1 := units.filter (fun u => u.status = UnitStatus.available)
  let q2 := if unitTypes.isEmpty then q1
    else q1.filter (fun u => unitTypes.contains u.unitType)
  q2.filter
    (fun u => dist u.latitude u.longitude latitude longitude ≤ radiusKm)

/-- The final `order_by(distance).first()` of `find_nearest_rescue_unit`:
a minimal-distance element of the filtered pool. -/
def findNearestRescueUnit (dist : ℚ → ℚ → ℚ → ℚ → ℚ)
    (units : List RescueUnit) (latitude longitude radiusKm : ℚ)
    (unitTypes : List UnitType) : Option RescueUnit :=
  (findNearestPool dist units latitude longitude radiusKm unitTypes).argmin
    (fun u => dist u.latitude u.longitude latitude longitude)

/-- The auto-assignment step of `create_incident`
(routers/incidents.py lines 101-115): for a freshly created high or
critical incident, call `find_nearest_rescue_unit` with the default radius
(50 km) and no type filter; when a unit is found, set the incident's
`assigned_unit_id` and move it to `assigned`.  The unit pool is returned
unchanged: the router never updates the unit. -/
def createIncidentAutoAssign (dist : ℚ → ℚ → ℚ → ℚ → ℚ)
    (units : List RescueUnit) (inc : Incident) :
    Incident × List RescueUnit :=
  if inc.severity = SeverityLevel.high ∨ inc.severity = SeverityLevel.critical
  then
    match findNearestRescueUnit dist units inc.latitude inc.longitude 50 []
    with
    | some u =>
      ({ inc with assignedUnitId := some u.id, status := .assigned }, units)
    | none => (inc, units)
  else (inc, units)

/-- The sort key of `optimize_unit_assignments` (utils/spatial.py lines
147-156): the Python tuple
`(severity == critical, severity == high, affected_people_count)`, compared
lexicographically, wrapped for the lexicographic order. -/
def planSortKey (inc : Incident) : Bool ×ₗ Bool ×ₗ ℤ :=
  toLex (inc.severity = SeverityLevel.critical,
    toLex (inc.severity = SeverityLevel.high, inc.affectedPeopleCount))

/-- Stable descending insertion by `planSortKey`: the element is placed
before the first list element whose key is not larger.  Together with
`sortIncidentsDesc` this is the meaning of Python's stable
`sorted(key, reverse=True)`. -/
def insertDesc (x : Incident) : List Incident → List Incident
  | [] => [x]
  | y :: ys =>
    if planSortKey x < planSortKey y then y :: insertDesc x ys
    else x :: y :: ys

/-- The `sorted(incidents, key=..., reverse=True)` call of
`optimize_unit_assignments`: a stable descending sort by `planSortKey`. -/
def sortIncidentsDesc : List Incident → List Incident
  | [] => []
  | x :: xs => insertDesc x (sortIncidentsDesc xs)

/-- The candidate query of one loop iteration of
`optimize_unit_assignments`: units with status `available` whose id is not
in `used_units`, within `max_radius_km` of the incident. -/
def planCandidates (dist : ℚ → ℚ → ℚ → ℚ → ℚ) (units : List RescueUnit)
    (maxRadiusKm : ℚ) (inc : Incident) (usedUnits : List ℕ) :
    List RescueUnit :=
  (units.filter (fun u =>
    u.status = UnitStatus.available ∧ ¬ usedUnits.contains u.id)).filter
    (fun u => dist u.latitude u.longitude inc.latitude inc.longitude ≤
      maxRadiusKm)

/-- The main loop of `optimize_unit_assignments` (utils/spatial.py lines
158-187) over the already-sorted incidents: incidents whose latitude or
longitude is falsy (0.0) get no unit; otherwise the nearest unused
available unit in range is claimed and its id added to `used_units`. -/
def planLoop (dist : ℚ → ℚ → ℚ → ℚ → ℚ) (units : List RescueUnit)
    (maxRadiusKm : ℚ) :
    List Incident → List ℕ → List (Incident × Option RescueUnit)
  | [], _ => []
  | inc :: rest, usedUnits =>
    if inc.latitude = 0 ∨ inc.longitude = 0 then
      (inc, none) :: planLoop dist units maxRadiusKm rest usedUnits
    else
      match (planCandidates dist units maxRadiusKm inc usedUnits).argmin
        (fun u => dist u.latitude u.longitude inc.latitude inc.longitude)
      with
      | some u =>
        (inc, some u) :: planLoop dist units maxRadiusKm rest
          (u.id :: usedUnits)
      | none => (inc, none) :: planLoop dist units maxRadiusKm rest usedUnits

/-- `optimize_unit_assignments` (utils/spatial.py lines 135-188): sort the
incidents by the severity/affected-count key, then greedily claim nearest
available units. -/
def optimizeUnitAssignments (dist : ℚ → ℚ → ℚ → ℚ → ℚ)
    (units : List RescueUnit) (incidents : List Incident)
    (maxRadiusKm : ℚ) : List (Incident × Option RescueUnit) :=
  planLoop dist units maxRadiusKm (sortIncidentsDesc incidents) []

/-! Coverage analyzer, from `check_coverage_gaps` (utils/spatial.py lines
216-272).  The grid walk accumulates `lat += lat_step` from `min_lat`
while `lat <= max_lat`; over rationals that is the arithmetic progression
below.  The per-point coverage test calls `calculate_distance`, so it
compares real numbers and the embedded function is noncomputable. -/

/-- The active-unit query of `check_coverage_gaps`: every unit whose
status is not `offline` (all other statuses, including `maintenance` and
`out_of_service`, count as covering). -/
def coverageActiveUnits (units : List RescueUnit) : List RescueUnit :=
  units.filter (fun u => ¬ u.status = UnitStatus.offline)

/-- The `unit_coords` list of `check_coverage_gaps`: coordinates of active
units, skipping any unit whose latitude or longitude is falsy (0.0). -/
def coverageUnitCoords (units : List RescueUnit) : List (ℚ × ℚ) :=
  ((coverageActiveUnits units).filter
    (fun u => ¬ u.latitude = 0 ∧ ¬ u.longitude = 0)).map
    (fun u => (u.latitude, u.longitude))

/-- The values visited by a Python `while v <= hi: ... v += step` loop
started at `lo`, for a positive step.  (For `step ≤ 0` with `lo ≤ hi` the
Python loop would not terminate; the dispatch core only calls it with
positive grid sizes.) -/
def gridVals (lo hi step : ℚ) : List ℚ :=
  if lo ≤ hi ∧ 0 < step then
    (List.range (⌊(hi - lo) / step⌋ + 1).toNat).map
      (fun k => lo + (k : ℚ) * step)
  else []

/-- The grid latitudes walked by `check_coverage_gaps` for a given unit
pool and grid size: from `min(lats) - 0.5` to `max(lats) + 0.5` in steps
of `grid_size_km / 111`. -/
def coverageGridLats (units : List RescueUnit) (gridSizeKm : ℚ) : List ℚ :=
  match coverageUnitCoords units with
  | [] => []
  | c :: cs =>
    gridVals ((cs.map Prod.fst).foldl min c.1 - 1 / 2)
      ((cs.map Prod.fst).foldl max c.1 + 1 / 2) (gridSizeKm / 111)

/-- The grid longitudes walked by `check_coverage_gaps`: from
`min(lngs) - 0.5` to `max(lngs) + 0.5` in steps of
`grid_size_km / (111 * 0.8)`. -/
def coverageGridLngs (units : List RescueUnit) (gridSizeKm : ℚ) : List ℚ :=
  match coverageUnitCoords units with
  | [] => []
  | c :: cs =>
    gridVals ((cs.map Prod.snd).foldl min c.2 - 1 / 2)
      ((cs.map Prod.snd).foldl max c.2 + 1 / 2)
      (gridSizeKm / (111 * (8 / 10)))

/-- The per-point coverage test of `check_coverage_gaps`: some active unit
with truthy coordinates lies within the coverage radius.  Distances are the
real haversine values of `calculate_distance` (which, by
`calculateDistance_ok` below, never raises). -/
def coveredPoint (units : List RescueUnit) (lat lng coverageRadiusKm : ℚ) :
    Prop :=
  ∃ u ∈ coverageActiveUnits units, ¬ u.latitude = 0 ∧ ¬ u.longitude = 0 ∧
    calculateDistanceVal (lat : ℝ) (lng : ℝ) (u.latitude : ℝ)
      (u.longitude : ℝ) ≤ (coverageRadiusKm : ℝ)

open Classical in
/-- `check_coverage_gaps` (utils/spatial.py lines 216-272): all grid
points covered by no active truthy-coordinate unit, in row-major walk
order. -/
noncomputable def checkCoverageGaps (units : List RescueUnit)
    (gridSizeKm coverageRadiusKm : ℚ) : List (ℚ × ℚ) :=
  if (coverageActiveUnits units).isEmpty then []
  else
    (coverageGridLats units gridSizeKm).flatMap (fun lat =>
      ((coverageGridLngs units gridSizeKm).filter (fun lng =>
        ¬ coveredPoint units lat lng coverageRadiusKm)).map
        (fun lng => (lat, lng)))

/-! Concrete entities used by the concrete evaluations below. -/

/-- A distance function that is identically zero, used where a concrete
evaluation does not depend on the geodesic distances. -/
def zeroDist : ℚ → ℚ → ℚ → ℚ → ℚ := fun _ _ _ _ => 0

/-- A baseline rescue unit: available, no capabilities, at (1, 1). -/
def baseUnit : RescueUnit :=
  { id := 7
    unitName := "Unit-7"
    unitType := UnitType.police
    status := UnitStatus.available
    latitude := 1
    longitude := 1
    capabilities := []
    currentIncidentId := none
    deploymentStart := none
    estimatedReturn := none
    totalServiceTime := 0
    lastDeployment := none
    statusChangedAt := 0
    isActive := true }

/-- A baseline incident: flood, high severity, reported, at (1, 1). -/
def baseIncident : Incident :=
  { id := 1
    incidentType := IncidentType.flood
    severity := SeverityLevel.high
    status := IncidentStatus.reported
    latitude := 1
    longitude := 1
    affectedPeopleCount := 0
    assignedUnitId := none
    assignedById := none
    verifiedById := none
    isMassCasualty := false
    isHazmatInvolved := false
    isStructuralDamage := false
    createdAt := 0
    verifiedAt := none
    assignedAt := none
    responseStartedAt := none
    resolvedAt := none
    closedAt := none
    resolutionTime := none
    notes := [] }

/-- A standby unit within trivial distance of the query point. -/
def standbyUnit : RescueUnit := { baseUnit with id := 9, status := .standby }

/-- A high-severity incident with nobody affected, reported at time
108000 s (so zero hours old at `now = 108000`). -/
def incidentHighFew : Incident :=
  { baseIncident with id := 1, severity := .high, createdAt := 108000 }

/-- A medium-severity incident with 150 people affected, all special flags
set, reported at time 0 (30 hours old at `now = 108000`). -/
def incidentMediumMany : Incident :=
  { baseIncident with
      id := 2
      severity := .medium
      affectedPeopleCount := 150
      isMassCasualty := true
      isHazmatInvolved := true
      isStructuralDamage := true
      createdAt := 0 }

/-- An available (hence operational) unit sitting exactly on the equator,
at (0, 10): its latitude is the falsy float 0.0. -/
def equatorUnit : RescueUnit :=
  { baseUnit with id := 21, latitude := 0, longitude := 10 }

/-- An available unit at (0.4, 10), about 44.5 km north of (0, 10). -/
def northUnit : RescueUnit :=
  { baseUnit with id := 22, latitude := 2 / 5, longitude := 10 }

/-- The allowed-transition table exactly as the specification (and claim
C2) enumerate it, for comparison with the code's
`IncidentStatus.can_transition_to`. -/
def specAllowedTransition (s t : IncidentStatus) : Prop :=
  (s, t) ∈ ([(.reported, .verified), (.reported, .assigned),
    (.reported, .cancelled), (.verified, .assigned), (.verified, .cancelled),
    (.assigned, .inProgress), (.assigned, .reported), (.assigned, .cancelled),
    (.inProgress, .resolved), (.inProgress, .assigned),
    (.resolved, .closed), (.resolved, .inProgress)] :
    List (IncidentStatus × IncidentStatus))

instance (s t : IncidentStatus) : Decidable (specAllowedTransition s t) := by
  unfold specAllowedTransition
  infer_instance

/-! Theorems.  First the analytic facts about the haversine code. -/

/-- The haversine intermediate value lies in [0, 1] for every real input:
it equals (1 - cos(central angle)) / 2. -/
theorem haversineShape_bounds (p q l : ℝ) :
    0 ≤ Real.sin ((q - p) / 2) ^ 2 +
        Real.cos p * Real.cos q * Real.sin (l / 2) ^ 2 ∧
      Real.sin ((q - p) / 2) ^ 2 +
          Real.cos p * Real.cos q * Real.sin (l / 2) ^ 2 ≤ 1 := by
  have h1 := Real.sin_sq_eq_half_sub ((q - p) / 2)
  have h2 := Real.sin_sq_eq_half_sub (l / 2)
  have e1 : 2 * ((q - p) / 2) = q - p := by ring
  have e2 : 2 * (l / 2) = l := by ring
  rw [e1] at h1
  rw [e2] at h2
  have hsub : Real.cos (q - p) =
      Real.cos q * Real.cos p + Real.sin q * Real.sin p := Real.cos_sub q p
  have hadd : Real.cos (q + p) =
      Real.cos q * Real.cos p - Real.sin q * Real.sin p := Real.cos_add q p
  have hc1 : Real.cos (q - p) ≤ 1 := Real.cos_le_one _
  have hc2 : -1 ≤ Real.cos (q - p) := Real.neg_one_le_cos _
  have hc3 : Real.cos (q + p) ≤ 1 := Real.cos_le_one _
  have hc4 : -1 ≤ Real.cos (q + p) := Real.neg_one_le_cos _
  have hc5 : Real.cos l ≤ 1 := Real.cos_le_one _
  have hc6 : -1 ≤ Real.cos l := Real.neg_one_le_cos _
  constructor
  · nlinarith [mul_nonneg (by linarith : (0:ℝ) ≤ 1 + Real.cos l)
      (by nlinarith : (0:ℝ) ≤ 1 + Real.cos (q - p)),
      mul_nonneg (by linarith : (0:ℝ) ≤ 1 - Real.cos l)
      (by nlinarith : (0:ℝ) ≤ 1 + Real.cos (q + p))]
  · nlinarith [mul_nonneg (by linarith : (0:ℝ) ≤ 1 + Real.cos l)
      (by nlinarith : (0:ℝ) ≤ 1 - Real.cos (q - p)),
      mul_nonneg (by linarith : (0:ℝ) ≤ 1 - Real.cos l)
      (by nlinarith : (0:ℝ) ≤ 1 - Real.cos (q + p))]

/-- The `a` computed by `calculate_distance` is in [0, 1] for all real
inputs, in-range or not. -/
theorem haversineA_bounds (lat1 lon1 lat2 lon2 : ℝ) :
    0 ≤ haversineA lat1 lon1 lat2 lon2 ∧
      haversineA lat1 lon1 lat2 lon2 ≤ 1 := by
  have h := haversineShape_bounds (radiansR lat1) (radiansR lat2)
    (radiansR lon2 - radiansR lon1)
  simpa [haversineA] using h

/-- `calculate_distance` never takes a math-domain error: on every input it
returns the plain haversine value. -/
theorem calculateDistance_ok (lat1 lon1 lat2 lon2 : ℝ) :
    calculateDistance lat1 lon1 lat2 lon2 =
      .ok (calculateDistanceVal lat1 lon1 lat2 lon2) := by
  obtain ⟨h0, h1⟩ := haversineA_bounds lat1 lon1 lat2 lon2
  have hs0 : (0:ℝ) ≤ Real.sqrt (haversineA lat1 lon1 lat2 lon2) :=
    Real.sqrt_nonneg _
  have hs1 : Real.sqrt (haversineA lat1 lon1 lat2 lon2) ≤ 1 := by
    have := Real.sqrt_le_sqrt h1
    simpa using this
  have hq : checkedSqrt (haversineA lat1 lon1 lat2 lon2) =
      .ok (Real.sqrt (haversineA lat1 lon1 lat2 lon2)) := by
    rw [checkedSqrt, if_neg (not_lt.mpr h0)]
  have ha : checkedAsin (Real.sqrt (haversineA lat1 lon1 lat2 lon2)) =
      .ok (Real.arcsin (Real.sqrt (haversineA lat1 lon1 lat2 lon2))) := by
    rw [checkedAsin, if_neg]
    push_neg
    exact ⟨by linarith, hs1⟩
  simp only [calculateDistance, hq, ha, calculateDistanceVal]

/-- The haversine intermediate vanishes when both endpoints coincide. -/
theorem haversineA_self (lat lon : ℝ) : haversineA lat lon lat lon = 0 := by
  simp [haversineA]

/-- The haversine intermediate is symmetric in its two endpoints. -/
theorem haversineA_comm (lat1 lon1 lat2 lon2 : ℝ) :
    haversineA lat1 lon1 lat2 lon2 = haversineA lat2 lon2 lat1 lon1 := by
  have e1 : Real.sin ((radiansR lat1 - radiansR lat2) / 2) ^ 2 =
      Real.sin ((radiansR lat2 - radiansR lat1) / 2) ^ 2 := by
    rw [show (radiansR lat1 - radiansR lat2) / 2 =
      -((radiansR lat2 - radiansR lat1) / 2) by ring, Real.sin_neg]
    ring
  have e2 : Real.sin ((radiansR lon1 - radiansR lon2) / 2) ^ 2 =
      Real.sin ((radiansR lon2 - radiansR lon1) / 2) ^ 2 := by
    rw [show (radiansR lon1 - radiansR lon2) / 2 =
      -((radiansR lon2 - radiansR lon1) / 2) by ring, Real.sin_neg]
    ring
  rw [haversineA, haversineA, e1, e2]
  ring

/-- The distance value of coincident endpoints is zero. -/
theorem calculateDistanceVal_self (lat lon : ℝ) :
    calculateDistanceVal lat lon lat lon = 0 := by
  rw [calculateDistanceVal, haversineA_self]
  simp

/-- The distance value is symmetric. -/
theorem calculateDistanceVal_comm (lat1 lon1 lat2 lon2 : ℝ) :
    calculateDistanceVal lat1 lon1 lat2 lon2 =
      calculateDistanceVal lat2 lon2 lat1 lon1 := by
  rw [calculateDistanceVal, calculateDistanceVal, haversineA_comm]

/-- Claim C9: for all valid coordinate pairs a and b,
distanceKm(a, a) = 0 and distanceKm(a, b) = distanceKm(b, a):
`calculate_distance` returns 0 on a repeated pair and is symmetric. -/
theorem geo_distance_self_zero_and_symm (lat1 lon1 lat2 lon2 : ℝ)
    (hlat1 : -90 ≤ lat1 ∧ lat1 ≤ 90) (hlon1 : -180 ≤ lon1 ∧ lon1 ≤ 180)
    (hlat2 : -90 ≤ lat2 ∧ lat2 ≤ 90) (hlon2 : -180 ≤ lon2 ∧ lon2 ≤ 180) :
    calculateDistance lat1 lon1 lat1 lon1 = .ok 0 ∧
      calculateDistance lat1 lon1 lat2 lon2 =
        calculateDistance lat2 lon2 lat1 lon1 := by
  refine ⟨?_, ?_⟩
  · rw [calculateDistance_ok, calculateDistanceVal_self]
  · rw [calculateDistance_ok, calculateDistance_ok,
      calculateDistanceVal_comm]

/-- Witness for `geo_distance_self_zero_and_symm` at the concrete valid
pair (9.93, 78.115) and (9.918, 78.11). -/
theorem geo_distance_self_zero_and_symm_witness :
    ((-90 ≤ (9.93:ℝ) ∧ (9.93:ℝ) ≤ 90) ∧
        (-180 ≤ (78.115:ℝ) ∧ (78.115:ℝ) ≤ 180) ∧
        (-90 ≤ (9.918:ℝ) ∧ (9.918:ℝ) ≤ 90) ∧
        (-180 ≤ (78.11:ℝ) ∧ (78.11:ℝ) ≤ 180)) ∧
      calculateDistance (9.93:ℝ) 78.115 9.93 78.115 = .ok 0 ∧
        calculateDistance (9.93:ℝ) 78.115 9.918 78.11 =
          calculateDistance (9.918:ℝ) 78.11 9.93 78.115 :=
  ⟨⟨by norm_num, by norm_num, by norm_num, by norm_num⟩,
    geo_distance_self_zero_and_symm 9.93 78.115 9.918 78.11
      (by norm_num) (by norm_num) (by norm_num) (by norm_num)⟩

/-- Claim C7 counterexample: latitude 200 is outside [-90, 90] and
`validate_coordinates` rejects it, yet `calculate_distance` does not fail:
it returns the ordinary value 0 for the repeated out-of-range pair, and
`point_in_radius` likewise succeeds. -/
theorem geo_no_invalid_coordinate_failure :
    validateCoordinates 200 0 = false ∧
      calculateDistance (200:ℝ) 0 200 0 = .ok 0 ∧
      pointInRadius (200:ℝ) 0 200 0 1 = .ok ((0:ℝ) ≤ 1) := by
  refine ⟨by decide, ?_, ?_⟩
  · rw [calculateDistance_ok, calculateDistanceVal_self]
  · rw [pointInRadius, calculateDistance_ok, calculateDistanceVal_self]

/-- Claim C7 as amended: no Geo Math operation validates coordinates or
fails with InvalidCoordinate.  `calculate_distance` and `point_in_radius`
return ordinary results on every input, in-range or not (`validate_coordinates`
exists as a standalone range predicate but is never called by them). -/
theorem geo_operations_total (lat1 lon1 lat2 lon2 radiusKm : ℝ) :
    calculateDistance lat1 lon1 lat2 lon2 =
        .ok (calculateDistanceVal lat1 lon1 lat2 lon2) ∧
      pointInRadius lat1 lon1 lat2 lon2 radiusKm =
        .ok (calculateDistanceVal lat1 lon1 lat2 lon2 ≤ radiusKm) := by
  refine ⟨calculateDistance_ok lat1 lon1 lat2 lon2, ?_⟩
  rw [pointInRadius, calculateDistance_ok]

/-- Claim C2: the code's transition predicate agrees exactly with the
claimed table, and every status update whose requested successor is not in
the table fails with the invalid-transition error, mutating nothing (the
source raises before writing any field; the embedded update returns only
the error). -/
theorem incident_invalid_transition_rejected :
    (∀ s t : IncidentStatus,
        s.canTransitionTo t = true ↔ specAllowedTransition s t) ∧
      ∀ (inc : Incident) (t : IncidentStatus) (userId : Option ℕ) (now : ℚ),
        ¬ specAllowedTransition inc.status t →
        inc.updateStatus t userId now =
          .error (transitionErrorMsg inc.status t) := by
  have htable : ∀ s t : IncidentStatus,
      s.canTransitionTo t = true ↔ specAllowedTransition s t := by decide
  refine ⟨htable, ?_⟩
  intro inc t userId now h
  rw [Incident.updateStatus, if_pos]
  intro hc
  exact h ((htable inc.status t).mp hc)

/-- Witness for `incident_invalid_transition_rejected`: the transition
closed → reported is outside the table and the update on a closed incident
fails with the invalid-transition error. -/
theorem incident_invalid_transition_rejected_witness :
    ¬ specAllowedTransition IncidentStatus.closed IncidentStatus.reported ∧
      ({ baseIncident with status := .closed } : Incident).updateStatus
          .reported (some 3) 5 =
        .error (transitionErrorMsg .closed .reported) :=
  ⟨by decide,
    incident_invalid_transition_rejected.2
      { baseIncident with status := .closed } .reported (some 3) 5
      (by decide)⟩

/-- Claim C5: the priority score always lies in [0, 100], and it is a pure
function of severity, affected-people count, age since report and the three
special-condition flags: two incidents agreeing on those inputs (with the
same age) get the same score, whatever their other fields. -/
theorem priority_score_bounded_and_pure (inc : Incident) (now : ℚ) :
    (0 ≤ inc.calculatePriorityScore now ∧
        inc.calculatePriorityScore now ≤ 100) ∧
      ∀ (inc2 : Incident) (now2 : ℚ),
        inc.severity = inc2.severity →
        inc.affectedPeopleCount = inc2.affectedPeopleCount →
        now - inc.createdAt = now2 - inc2.createdAt →
        inc.isMassCasualty = inc2.isMassCasualty →
        inc.isHazmatInvolved = inc2.isHazmatInvolved →
        inc.isStructuralDamage = inc2.isStructuralDamage →
        inc.calculatePriorityScore now = inc2.calculatePriorityScore now2 := by
  constructor
  · have hsev : 0 ≤ severityWeight inc.severity * (2 / 5) := by
      cases inc.severity <;> norm_num [severityWeight]
    have hppl : 0 ≤ affectedPeopleBonus inc.affectedPeopleCount := by
      unfold affectedPeopleBonus
      split_ifs <;> norm_num
    have hage : 0 ≤ ageBonus ((now - inc.createdAt) / 3600) := by
      unfold ageBonus
      split_ifs <;> norm_num
    have hflag : 0 ≤ flagBonus inc.isMassCasualty inc.isHazmatInvolved
        inc.isStructuralDamage := by
      unfold flagBonus
      split_ifs <;> norm_num
    constructor
    · rw [Incident.calculatePriorityScore, calculatePriorityScoreOf]
      refine le_min ?_ (by norm_num)
      rw [Int.le_floor]
      push_cast
      linarith
    · exact min_le_right _ _
  · intro inc2 now2 h1 h2 h3 h4 h5 h6
    rw [Incident.calculatePriorityScore, Incident.calculatePriorityScore,
      h1, h2, h3, h4, h5, h6]

/-- Witness for `priority_score_bounded_and_pure`: the medium-severity
example incident at time 108000 scores 72, within bounds, and an incident
differing only in fields outside the score's inputs scores the same. -/
theorem priority_score_bounded_and_pure_witness :
    (0 ≤ incidentMediumMany.calculatePriorityScore 108000 ∧
        incidentMediumMany.calculatePriorityScore 108000 ≤ 100) ∧
      incidentMediumMany.calculatePriorityScore 108000 =
        ({ incidentMediumMany with
            id := 99
            status := .verified
            latitude := 5 } : Incident).calculatePriorityScore 108000 :=
  ⟨(priority_score_bounded_and_pure incidentMediumMany 108000).1,
    (priority_score_bounded_and_pure incidentMediumMany 108000).2
      { incidentMediumMany with id := 99, status := .verified, latitude := 5 }
      108000 rfl rfl rfl rfl rfl rfl⟩

/-- Claim C10: `RescueUnit.update_status` is total — for every current and
requested status it sets the requested status and stamps
`status_changed_at` — and entering `available` from any prior status clears
the current incident and deployment start while adding the elapsed
deployment time (zero when no deployment was open) to the running
total-service-time counter. -/
theorem unit_update_status_total (u : RescueUnit) (s : UnitStatus)
    (incidentId : Option ℕ) (now : ℚ) :
    (u.updateStatus s incidentId now).status = s ∧
      (u.updateStatus s incidentId now).statusChangedAt = now ∧
      (s = .available →
        (u.updateStatus s incidentId now).currentIncidentId = none ∧
          (u.updateStatus s incidentId now).deploymentStart = none ∧
          (u.updateStatus s incidentId now).totalServiceTime =
            u.totalServiceTime +
              (match u.deploymentStart with
                | some t => (now - t) / 3600
                | none => 0)) := by
  rw [RescueUnit.updateStatus]
  split_ifs with h1 h2 h3
  · refine ⟨rfl, rfl, ?_⟩
    intro hs
    rw [hs] at h1
    exact absurd h1.1 (by decide)
  · cases hd : u.deploymentStart with
    | none => exact ⟨rfl, rfl, fun _ => ⟨rfl, rfl, by simp [hd]⟩⟩
    | some t => exact ⟨rfl, rfl, fun _ => ⟨rfl, rfl, by simp [hd]⟩⟩
  · exact ⟨rfl, rfl, fun hs => absurd hs h2⟩
  · exact ⟨rfl, rfl, fun hs => absurd hs h2⟩

/-- Witness for `unit_update_status_total`: a dispatched unit that opened
its deployment at time 0 and returns to `available` at time 7200 ends up
with no current incident, no deployment start, and two more hours of
service time. -/
theorem unit_update_status_total_witness :
    (({ baseUnit with
        status := .dispatched
        currentIncidentId := some 4
        deploymentStart := some 0 } : RescueUnit).updateStatus
          .available none 7200).currentIncidentId = none ∧
      (({ baseUnit with
          status := .dispatched
          currentIncidentId := some 4
          deploymentStart := some 0 } : RescueUnit).updateStatus
            .available none 7200).totalServiceTime = 0 + 2 := by
  have h := unit_update_status_total
    { baseUnit with
        status := .dispatched
        currentIncidentId := some 4
        deploymentStart := some 0 } .available none 7200
  refine ⟨(h.2.2 rfl).1, ?_⟩
  rw [(h.2.2 rfl).2.2]
  norm_num [baseUnit]

/-- The assigned-unit ids produced by the planner loop are distinct and
avoid the incoming used set: the loop claims a unit only when its id is not
yet in `used_units` and then adds it. -/
theorem planLoop_ids_nodup (dist : ℚ → ℚ → ℚ → ℚ → ℚ)
    (units : List RescueUnit) (maxRadiusKm : ℚ) :
    ∀ (l : List Incident) (used : List ℕ),
      ((planLoop dist units maxRadiusKm l used).filterMap
          (fun p => p.2.map RescueUnit.id)).Nodup ∧
        ∀ x ∈ (planLoop dist units maxRadiusKm l used).filterMap
          (fun p => p.2.map RescueUnit.id), x ∉ used := by
  intro l
  induction l with
  | nil => intro used; simp [planLoop]
  | cons inc rest ih =>
    intro used
    simp only [planLoop]
    split_ifs with h
    · simpa using ih used
    · cases hm : (planCandidates dist units maxRadiusKm inc used).argmin
        (fun u => dist u.latitude u.longitude inc.latitude inc.longitude)
      with
      | none => simpa using ih used
      | some u =>
        have hu : u ∈ planCandidates dist units maxRadiusKm inc used :=
          List.argmin_mem hm
        have hid : u.id ∉ used := by
          rw [planCandidates] at hu
          have hu1 := (List.mem_filter.mp hu).1
          have hu2 := (List.mem_filter.mp hu1).2
          have hu3 := of_decide_eq_true hu2
          simpa using hu3.2
        obtain ⟨ihn, ihd⟩ := ih (u.id :: used)
        refine ⟨?_, ?_⟩
        · simp only [List.filterMap_cons, Option.map_some]
          refine List.nodup_cons.mpr ⟨?_, ihn⟩
          intro hin
          exact (ihd u.id hin) (List.mem_cons_self _ _)
        · intro x hx
          simp only [List.filterMap_cons, Option.map_some] at hx
          rcases List.mem_cons.mp hx with hx1 | hx2
          · rw [hx1]; exact hid
          · intro hmem
            exact (ihd x hx2) (List.mem_cons_of_mem _ hmem)

/-- Claim C1: over a unit pool with no duplicate unit ids, no unit id
appears as the assigned unit of more than one pair returned by one batch
planning pass of `optimize_unit_assignments`. -/
theorem optimize_assignments_no_duplicate_unit (dist : ℚ → ℚ → ℚ → ℚ → ℚ)
    (units : List RescueUnit) (incidents : List Incident) (maxRadiusKm : ℚ)
    (hids : (units.map RescueUnit.id).Nodup) :
    ((optimizeUnitAssignments dist units incidents maxRadiusKm).filterMap
      (fun p => p.2.map RescueUnit.id)).Nodup :=
  (planLoop_ids_nodup dist units maxRadiusKm
    (sortIncidentsDesc incidents) []).1

/-- Witness for `optimize_assignments_no_duplicate_unit`: a concrete pass
over two distinct-id units and two incidents yields pairwise-distinct
assigned unit ids. -/
theorem optimize_assignments_no_duplicate_unit_witness :
    (([baseUnit, { baseUnit with id := 8 }].map RescueUnit.id).Nodup) ∧
      ((optimizeUnitAssignments zeroDist
          [baseUnit, { baseUnit with id := 8 }]
          [baseIncident, { baseIncident with id := 2 }] 50).filterMap
        (fun p => p.2.map RescueUnit.id)).Nodup :=
  ⟨by decide,
    optimize_assignments_no_duplicate_unit zeroDist
      [baseUnit, { baseUnit with id := 8 }]
      [baseIncident, { baseIncident with id := 2 }] 50 (by decide)⟩

/-- The planner loop returns its incidents in exactly the order it was
given them: one output pair per incident. -/
theorem planLoop_map_fst (dist : ℚ → ℚ → ℚ → ℚ → ℚ)
    (units : List RescueUnit) (maxRadiusKm : ℚ) :
    ∀ (l : List Incident) (used : List ℕ),
      (planLoop dist units maxRadiusKm l used).map Prod.fst = l := by
  intro l
  induction l with
  | nil => intro used; rfl
  | cons inc rest ih =>
    intro used
    simp only [planLoop]
    split_ifs with h
    · simp [ih]
    · cases hm : (planCandidates dist units maxRadiusKm inc used).argmin
        (fun u => dist u.latitude u.longitude inc.latitude inc.longitude)
      with
      | none => simp [ih]
      | some u => simp [ih]

/-- Descending insertion produces a permutation: the inserted element joins
the list. -/
theorem insertDesc_perm (x : Incident) :
    ∀ l : List Incident, (insertDesc x l).Perm (x :: l) := by
  intro l
  induction l with
  | nil => simp [insertDesc]
  | cons y ys ih =>
    rw [insertDesc]
    split_ifs with h
    · exact ((ih.cons y).trans (List.Perm.swap x y ys))
    · exact List.Perm.refl _

/-- The stable descending sort is a permutation of its input. -/
theorem sortIncidentsDesc_perm :
    ∀ l : List Incident, (sortIncidentsDesc l).Perm l := by
  intro l
  induction l with
  | nil => simp [sortIncidentsDesc]
  | cons x xs ih =>
    rw [sortIncidentsDesc]
    exact (insertDesc_perm x (sortIncidentsDesc xs)).trans (ih.cons x)

/-- Descending insertion preserves the sortedness of the list with respect
to the planner key. -/
theorem insertDesc_pairwise (x : Incident) :
    ∀ l : List Incident,
      l.Pairwise (fun a b => planSortKey b ≤ planSortKey a) →
      (insertDesc x l).Pairwise (fun a b => planSortKey b ≤ planSortKey a) := by
  intro l
  induction l with
  | nil => intro h; simp [insertDesc]
  | cons y ys ih =>
    intro h
    obtain ⟨hy, hys⟩ := List.pairwise_cons.mp h
    rw [insertDesc]
    split_ifs with hlt
    · refine List.pairwise_cons.mpr ⟨?_, ih hys⟩
      intro z hz
      rcases List.mem_cons.mp ((insertDesc_perm x ys).mem_iff.mp hz) with
        hz1 | hz2
      · rw [hz1]; exact le_of_lt hlt
      · exact hy z hz2
    · refine List.pairwise_cons.mpr ⟨?_, h⟩
      intro z hz
      rcases List.mem_cons.mp hz with hz1 | hz2
      · rw [hz1]; exact le_of_not_lt hlt
      · exact le_trans (hy z hz2) (le_of_not_lt hlt)

/-- The stable descending sort is sorted: keys never increase along it. -/
theorem sortIncidentsDesc_pairwise :
    ∀ l : List Incident,
      (sortIncidentsDesc l).Pairwise
        (fun a b => planSortKey b ≤ planSortKey a) := by
  intro l
  induction l with
  | nil => simp [sortIncidentsDesc]
  | cons x xs ih => exact insertDesc_pairwise x (sortIncidentsDesc xs) ih

/-- Claim C4 counterexample: a pass over a high-severity incident with
nobody affected (id 1, priority score 24, the newer report) and a
medium-severity incident with 150 people affected, all flags set, 30 hours
old (id 2, priority score 72) processes id 1 first: the planner's order is
the severity tuple, not priority score descending (which would demand id 2
first), and not creation-time ascending either. -/
theorem optimize_assignments_order_counterexample :
    (optimizeUnitAssignments zeroDist []
        [incidentHighFew, incidentMediumMany] 50).map (fun p => p.1.id) =
      [1, 2] ∧
      incidentHighFew.calculatePriorityScore 108000 = 24 ∧
      incidentMediumMany.calculatePriorityScore 108000 = 72 ∧
      incidentMediumMany.createdAt < incidentHighFew.createdAt := by
  refine ⟨by decide, ?_, ?_, by decide⟩
  · norm_num [Incident.calculatePriorityScore, calculatePriorityScoreOf,
      severityWeight, affectedPeopleBonus, ageBonus, flagBonus,
      incidentHighFew, incidentMediumMany, baseIncident]
  · norm_num [Incident.calculatePriorityScore, calculatePriorityScoreOf,
      severityWeight, affectedPeopleBonus, ageBonus, flagBonus,
      incidentHighFew, incidentMediumMany, baseIncident]

/-- Claim C4 as amended: the batch planner processes the given incidents in
stable descending order of the tuple (severity is critical, severity is
high, affected-people count) — not by priority score, not by creation time:
the output pairs list the incidents in that sorted order, the order is a
permutation of the input, and the key never increases along it. -/
theorem optimize_assignments_processing_order (dist : ℚ → ℚ → ℚ → ℚ → ℚ)
    (units : List RescueUnit) (incidents : List Incident)
    (maxRadiusKm : ℚ) :
    (optimizeUnitAssignments dist units incidents maxRadiusKm).map
        Prod.fst = sortIncidentsDesc incidents ∧
      (sortIncidentsDesc incidents).Perm incidents ∧
      (sortIncidentsDesc incidents).Pairwise
        (fun a b => planSortKey b ≤ planSortKey a) :=
  ⟨planLoop_map_fst dist units maxRadiusKm (sortIncidentsDesc incidents) [],
    sortIncidentsDesc_perm incidents, sortIncidentsDesc_pairwise incidents⟩

/-- Membership in the filtered pool of `find_nearest_rescue_unit`: exactly
the available units passing the (possibly disabled) type filter that lie
within the radius. -/
theorem mem_findNearestPool (dist : ℚ → ℚ → ℚ → ℚ → ℚ)
    (units : List RescueUnit) (latitude longitude radiusKm : ℚ)
    (unitTypes : List UnitType) (v : RescueUnit) :
    v ∈ findNearestPool dist units latitude longitude radiusKm unitTypes ↔
      v ∈ units ∧ v.status = UnitStatus.available ∧
        (unitTypes = [] ∨ v.unitType ∈ unitTypes) ∧
        dist v.latitude v.longitude latitude longitude ≤ radiusKm := by
  cases unitTypes with
  | nil =>
    simp [findNearestPool, List.mem_filter, and_assoc]
    tauto
  | cons t ts =>
    simp [findNearestPool, List.mem_filter, and_assoc]
    tauto

/-- Claim C6 counterexample: a pool holding exactly one standby unit within
the radius.  The unit is dispatchable (standby counts), so the claim says
it must be returned as the minimum-distance unit; `find_nearest_rescue_unit`
filters on status `available` only, and returns the none-found result. -/
theorem find_nearest_excludes_standby :
    findNearestRescueUnit zeroDist [standbyUnit] 1 1 50 [] = none ∧
      standbyUnit.status = .standby ∧
      standbyUnit.status.isAvailableForDispatch = true ∧
      zeroDist standbyUnit.latitude standbyUnit.longitude 1 1 ≤ 50 := by
  refine ⟨by decide, by decide, by decide, by decide⟩

/-- Claim C6 as amended: `find_nearest_rescue_unit` selects among exactly
the units whose status is `available` (standby units are excluded), that
pass the optional type filter, and whose distance from the query point is
within the radius; it returns a minimum-distance unit of that set, and the
none-found result exactly when the set is empty. -/
theorem find_nearest_characterization (dist : ℚ → ℚ → ℚ → ℚ → ℚ)
    (units : List RescueUnit) (latitude longitude radiusKm : ℚ)
    (unitTypes : List UnitType) :
    (∀ u, findNearestRescueUnit dist units latitude longitude radiusKm
        unitTypes = some u →
      u ∈ units ∧ u.status = UnitStatus.available ∧
        (unitTypes = [] ∨ u.unitType ∈ unitTypes) ∧
        dist u.latitude u.longitude latitude longitude ≤ radiusKm ∧
        ∀ v ∈ units, v.status = UnitStatus.available →
          (unitTypes = [] ∨ v.unitType ∈ unitTypes) →
          dist v.latitude v.longitude latitude longitude ≤ radiusKm →
          dist u.latitude u.longitude latitude longitude ≤
            dist v.latitude v.longitude latitude longitude) ∧
      (findNearestRescueUnit dist units latitude longitude radiusKm
          unitTypes = none →
        ∀ v ∈ units, ¬ (v.status = UnitStatus.available ∧
          (unitTypes = [] ∨ v.unitType ∈ unitTypes) ∧
          dist v.latitude v.longitude latitude longitude ≤ radiusKm)) := by
  constructor
  · intro u hu
    have hmem : u ∈ findNearestPool dist units latitude longitude radiusKm
        unitTypes := List.argmin_mem hu
    obtain ⟨h1, h2, h3, h4⟩ := (mem_findNearestPool dist units latitude
      longitude radiusKm unitTypes u).mp hmem
    refine ⟨h1, h2, h3, h4, ?_⟩
    intro v hv hv1 hv2 hv3
    have hvmem : v ∈ findNearestPool dist units latitude longitude radiusKm
        unitTypes := (mem_findNearestPool dist units latitude longitude
      radiusKm unitTypes v).mpr ⟨hv, hv1, hv2, hv3⟩
    exact List.le_of_mem_argmin hvmem hu
  · intro hnone v hv hprops
    have hvmem : v ∈ findNearestPool dist units latitude longitude radiusKm
        unitTypes := (mem_findNearestPool dist units latitude longitude
      radiusKm unitTypes v).mpr ⟨hv, hprops.1, hprops.2.1, hprops.2.2⟩
    rw [findNearestRescueUnit, List.argmin_eq_none] at hnone
    rw [hnone] at hvmem
    exact List.not_mem_nil v hvmem

/-- Witness for `find_nearest_characterization`: a concrete one-unit pool
where the unit is returned with all the stated properties. -/
theorem find_nearest_characterization_witness :
    findNearestRescueUnit zeroDist [baseUnit] 1 1 50 [] = some baseUnit ∧
      (baseUnit ∈ [baseUnit] ∧ baseUnit.status = UnitStatus.available ∧
        (([] : List UnitType) = [] ∨ baseUnit.unitType ∈ ([] : List UnitType)) ∧
        zeroDist baseUnit.latitude baseUnit.longitude 1 1 ≤ 50 ∧
        ∀ v ∈ [baseUnit], v.status = UnitStatus.available →
          (([] : List UnitType) = [] ∨ v.unitType ∈ ([] : List UnitType)) →
          zeroDist v.latitude v.longitude 1 1 ≤ 50 →
          zeroDist baseUnit.latitude baseUnit.longitude 1 1 ≤
            zeroDist v.latitude v.longitude 1 1) :=
  ⟨by decide,
    (find_nearest_characterization zeroDist [baseUnit] 1 1 50 []).1 baseUnit
      (by decide)⟩

/-- Claim C3 counterexample: a high-severity flood incident is created with
one available unit in range that has no flood capability at all.  The
router assigns the unit anyway (no capability restriction is applied), and
the unit pool comes back unchanged (the unit stays `available`; it is never
transitioned to `dispatched`). -/
theorem create_incident_assigns_without_capability :
    (createIncidentAutoAssign zeroDist [baseUnit] baseIncident).1.assignedUnitId
        = some baseUnit.id ∧
      (createIncidentAutoAssign zeroDist [baseUnit]
          baseIncident).1.status = .assigned ∧
      baseUnit.canHandleIncidentType baseIncident.incidentType.value =
        false ∧
      baseIncident.severity = .high ∧
      (createIncidentAutoAssign zeroDist [baseUnit] baseIncident).2 =
        [baseUnit] ∧
      baseUnit.status = .available := by
  refine ⟨by decide, by decide, by decide, by decide, by decide, by decide⟩

/-- Claim C3 as amended: on creation of a high or critical incident the
router invokes `find_nearest_rescue_unit` with the default 50 km radius and
no type or capability restriction over units whose status is `available`;
if a unit is found, only the incident is updated (assigned unit id set and
status moved to `assigned`) while the unit pool — including the chosen
unit's status — is left unchanged; if none is found the incident stays
`reported`. -/
theorem create_incident_auto_assign_behavior (dist : ℚ → ℚ → ℚ → ℚ → ℚ)
    (units : List RescueUnit) (inc : Incident)
    (hrep : inc.status = .reported)
    (hsev : inc.severity = .high ∨ inc.severity = .critical) :
    (∀ u, findNearestRescueUnit dist units inc.latitude inc.longitude 50 []
        = some u →
      createIncidentAutoAssign dist units inc =
        ({ inc with assignedUnitId := some u.id, status := .assigned },
          units)) ∧
      (findNearestRescueUnit dist units inc.latitude inc.longitude 50 []
          = none →
        createIncidentAutoAssign dist units inc = (inc, units) ∧
          (createIncidentAutoAssign dist units inc).1.status = .reported) := by
  constructor
  · intro u hu
    rw [createIncidentAutoAssign, if_pos hsev, hu]
  · intro hnone
    rw [createIncidentAutoAssign, if_pos hsev, hnone]
    exact ⟨rfl, hrep⟩

/-- Witness for `create_incident_auto_assign_behavior`: the concrete
high-severity flood incident with one available unit is assigned that unit
and the pool is unchanged. -/
theorem create_incident_auto_assign_behavior_witness :
    (baseIncident.status = .reported ∧
        (baseIncident.severity = .high ∨ baseIncident.severity = .critical) ∧
        findNearestRescueUnit zeroDist [baseUnit] baseIncident.latitude
          baseIncident.longitude 50 [] = some baseUnit) ∧
      createIncidentAutoAssign zeroDist [baseUnit] baseIncident =
        ({ baseIncident with
            assignedUnitId := some baseUnit.id
            status := .assigned }, [baseUnit]) :=
  ⟨⟨rfl, Or.inl rfl, by decide⟩,
    (create_incident_auto_assign_behavior zeroDist [baseUnit] baseIncident
      rfl (Or.inl rfl)).1 baseUnit (by decide)⟩

/-- A status that is operational is in particular not `offline`, so the
unit passes the coverage query's only status filter. -/
theorem isOperational_ne_offline :
    ∀ s : UnitStatus, s.isOperational = true → ¬ s = UnitStatus.offline := by
  decide

/-- Membership in the coverage-gap output: the point is a walked grid point
and the coverage test fails for it (with a nonempty active pool). -/
theorem mem_checkCoverageGaps (units : List RescueUnit)
    (gridSizeKm coverageRadiusKm : ℚ) (p : ℚ × ℚ) :
    p ∈ checkCoverageGaps units gridSizeKm coverageRadiusKm ↔
      (coverageActiveUnits units).isEmpty = false ∧
        p.1 ∈ coverageGridLats units gridSizeKm ∧
        p.2 ∈ coverageGridLngs units gridSizeKm ∧
        ¬ coveredPoint units p.1 p.2 coverageRadiusKm := by
  rw [checkCoverageGaps]
  split_ifs with h
  · simp [h]
  · cases p with
    | mk a b =>
      rw [Bool.not_eq_true] at h
      simp only [List.mem_flatMap, List.mem_map, List.mem_filter,
        decide_eq_true_eq, Prod.mk.injEq, h, true_and]
      constructor
      · rintro ⟨la, hla, ln, ⟨hln, hcov⟩, hab⟩
        obtain ⟨ha, hb⟩ := hab
        rw [ha] at hla hcov
        rw [hb] at hln hcov
        exact ⟨hla, hln, hcov⟩
      · rintro ⟨hla, hln, hcov⟩
        exact ⟨a, hla, b, ⟨hln, hcov⟩, rfl, rfl⟩

/-- Claim C8 as amended: every point reported by `check_coverage_gaps` is a
walked grid point farther than the coverage radius from every operational
unit whose latitude and longitude are both nonzero (the code skips units
with a falsy — exactly zero — coordinate, and filters the pool only by
status ≠ offline, which includes all operational units), and no grid point
within the radius of such a unit is reported. -/
theorem coverage_gaps_characterization (units : List RescueUnit)
    (gridSizeKm coverageRadiusKm : ℚ) (p : ℚ × ℚ) :
    (p ∈ checkCoverageGaps units gridSizeKm coverageRadiusKm →
      (p.1 ∈ coverageGridLats units gridSizeKm ∧
        p.2 ∈ coverageGridLngs units gridSizeKm) ∧
        ∀ u ∈ units, u.status.isOperational = true → ¬ u.latitude = 0 →
          ¬ u.longitude = 0 →
          (coverageRadiusKm : ℝ) <
            calculateDistanceVal (p.1 : ℝ) (p.2 : ℝ) (u.latitude : ℝ)
              (u.longitude : ℝ)) ∧
      ∀ u ∈ units, u.status.isOperational = true → ¬ u.latitude = 0 →
        ¬ u.longitude = 0 →
        calculateDistanceVal (p.1 : ℝ) (p.2 : ℝ) (u.latitude : ℝ)
            (u.longitude : ℝ) ≤ (coverageRadiusKm : ℝ) →
        p ∉ checkCoverageGaps units gridSizeKm coverageRadiusKm := by
  constructor
  · intro hmem
    obtain ⟨hne, hla, hln, hcov⟩ :=
      (mem_checkCoverageGaps units gridSizeKm coverageRadiusKm p).mp hmem
    refine ⟨⟨hla, hln⟩, ?_⟩
    intro u hu hop hlat hlon
    by_contra hle
    push_neg at hle
    refine hcov ⟨u, ?_, hlat, hlon, hle⟩
    rw [coverageActiveUnits, List.mem_filter]
    exact ⟨hu, decide_eq_true (isOperational_ne_offline u.status hop)⟩
  · intro u hu hop hlat hlon hle hmem
    obtain ⟨hne, hla, hln, hcov⟩ :=
      (mem_checkCoverageGaps units gridSizeKm coverageRadiusKm p).mp hmem
    refine hcov ⟨u, ?_, hlat, hlon, hle⟩
    rw [coverageActiveUnits, List.mem_filter]
    exact ⟨hu, decide_eq_true (isOperational_ne_offline u.status hop)⟩

/-- The unit 0.4 degrees of latitude due north of the grid point (0, 10)
is more than 25 km away from it: the haversine distance is 6371·π/450 km,
roughly 44.5 km. -/
theorem northUnit_beyond_radius :
    (25 : ℝ) < calculateDistanceVal 0 10 (2 / 5) 10 := by
  have e0 : radiansR 0 = 0 := by simp [radiansR]
  have e1 : (radiansR (2 / 5) - radiansR 0) / 2 = Real.pi / 900 := by
    rw [e0, radiansR]
    ring
  have e2 : ((radiansR 10 - radiansR 10) / 2 : ℝ) = 0 := by ring
  have hA : haversineA 0 10 (2 / 5) 10 = Real.sin (Real.pi / 900) ^ 2 := by
    rw [haversineA, e1, e2, Real.sin_zero]
    ring
  have hpi := Real.pi_gt_three
  have hpos := Real.pi_pos
  have hs : (0 : ℝ) ≤ Real.sin (Real.pi / 900) := by
    apply Real.sin_nonneg_of_nonneg_of_le_pi
    · positivity
    · linarith
  have hq : Real.sqrt (Real.sin (Real.pi / 900) ^ 2) =
      Real.sin (Real.pi / 900) := Real.sqrt_sq hs
  have ha : Real.arcsin (Real.sin (Real.pi / 900)) = Real.pi / 900 := by
    apply Real.arcsin_sin
    · linarith
    · linarith
  rw [calculateDistanceVal, hA, hq, ha]
  nlinarith

/-- The point (0, 10) is reported as a coverage gap for the pool holding
the equator unit (at (0, 10) itself, skipped for its zero latitude) and
the north unit (44.5 km away). -/
theorem equator_point_is_reported_gap :
    ((0 : ℚ), (10 : ℚ)) ∈
      checkCoverageGaps [equatorUnit, northUnit] (111 / 10) 25 := by
  refine (mem_checkCoverageGaps [equatorUnit, northUnit] (111 / 10) 25
    (0, 10)).mpr ⟨by with_unfolding_all decide, by with_unfolding_all decide,
      by with_unfolding_all decide, ?_⟩
  rintro ⟨u, hu, hlat, hlon, hdist⟩
  have hu2 : u = equatorUnit ∨ u = northUnit := by
    have heq : coverageActiveUnits [equatorUnit, northUnit] =
        [equatorUnit, northUnit] := by with_unfolding_all decide
    rw [heq] at hu
    simpa using hu
  rcases hu2 with h | h
  · rw [h] at hlat
    exact hlat (by with_unfolding_all decide)
  · rw [h] at hdist
    have hcast : calculateDistanceVal ((0 : ℚ) : ℝ) ((10 : ℚ) : ℝ)
        ((northUnit.latitude : ℚ) : ℝ) ((northUnit.longitude : ℚ) : ℝ) =
        calculateDistanceVal 0 10 (2 / 5) 10 := by
      norm_num [northUnit, baseUnit]
    rw [hcast] at hdist
    have := northUnit_beyond_radius
    have h25 : ((25 : ℚ) : ℝ) = (25 : ℝ) := by norm_num
    rw [h25] at hdist
    linarith

/-- Claim C8 counterexample: in the pool holding the operational (available)
equator unit at (0, 10) and the available north unit at (0.4, 10), the grid
point (0, 10) is reported as a coverage gap even though its distance to the
operational equator unit is 0 km, well within the 25 km radius — the code's
truthiness check skips every unit whose latitude is exactly 0. -/
theorem coverage_gap_within_radius_of_operational_unit :
    ((0 : ℚ), (10 : ℚ)) ∈
        checkCoverageGaps [equatorUnit, northUnit] (111 / 10) 25 ∧
      equatorUnit.status.isOperational = true ∧
      calculateDistanceVal ((0 : ℚ) : ℝ) ((10 : ℚ) : ℝ)
          (equatorUnit.latitude : ℝ) (equatorUnit.longitude : ℝ) ≤
        ((25 : ℚ) : ℝ) := by
  refine ⟨equator_point_is_reported_gap, by decide, ?_⟩
  have hcast : calculateDistanceVal ((0 : ℚ) : ℝ) ((10 : ℚ) : ℝ)
      ((equatorUnit.latitude : ℚ) : ℝ) ((equatorUnit.longitude : ℚ) : ℝ) =
      calculateDistanceVal 0 10 0 10 := by
    norm_num [equatorUnit, baseUnit]
  rw [hcast, calculateDistanceVal_self]
  norm_num

/-- Witness for `coverage_gaps_characterization`: applied to the concrete
reported gap point (0, 10), it yields that the nonzero-coordinate
operational north unit is more than 25 km away. -/
theorem coverage_gaps_characterization_witness :
    ((0 : ℚ), (10 : ℚ)) ∈
        checkCoverageGaps [equatorUnit, northUnit] (111 / 10) 25 ∧
      ((25 : ℚ) : ℝ) <
        calculateDistanceVal (((0 : ℚ) : ℝ)) (((10 : ℚ) : ℝ))
          (northUnit.latitude : ℝ) (northUnit.longitude : ℝ) :=
  ⟨equator_point_is_reported_gap,
    ((coverage_gaps_characterization [equatorUnit, northUnit] (111 / 10) 25
        (0, 10)).1 equator_point_is_reported_gap).2 northUnit
      (by with_unfolding_all decide) (by with_unfolding_all decide)
      (by with_unfolding_all decide) (by with_unfolding_all decide)⟩

end FloodResponse
